import Mathlib

/-!
Verification development for a small chat backend (FastAPI + SQLAlchemy +
OpenAI).  The embedding below translates, function by function, the Python
source in app/utils.py, app/chat.py, app/database.py and app/main.py into
executable Lean definitions:

* rows of the two database tables become structures; the durable database
  is a pair of row lists (`Store`);
* a SQLAlchemy ORM session is modelled by its working (in-transaction)
  state: a mutation returns the working `Store` plus a flag recording
  whether `commit` was called.  `get_db` closes the session after the
  request; closing an uncommitted session rolls the transaction back, so
  the durable state survives unchanged unless a commit happened;
* `datetime.utcnow()` and `uuid.uuid4()` are oracles: each call site takes
  the produced timestamp (a natural number) or fresh identifier as an
  explicit argument;
* the OpenAI chat-completions call is an oracle function from the message
  payload to `Except String String` (error text, or the returned content).
-/

/-- A role/content dictionary, as used both for rows returned by
get_chat_history and for the payload sent to the completions API. -/
structure ChatDict where
  role : String
  content : String
deriving DecidableEq

/-- Row of the chat_sessions table (database.ChatSession).  The surrogate
integer primary key plays no role in any query and is omitted. -/
structure SessionRow where
  session_id : String
  user_id : String
  title : String
  created_at : Nat
deriving DecidableEq

/-- Row of the chat_messages table (database.ChatMessage).  The surrogate
integer primary key plays no role in any query and is omitted. -/
structure MessageRow where
  session_id : String
  role : String
  content : String
  timestamp : Nat
deriving DecidableEq

/-- The durable database state: the two tables, each in insertion order. -/
structure Store where
  sessions : List SessionRow
  messages : List MessageRow
deriving DecidableEq

/-- Result of running a Store mutation inside one ORM session (one
`get_db` scope): the returned value, the working in-transaction state,
and whether db.commit() was called.  On close, an uncommitted transaction
is rolled back, so the durable state becomes `working` only when
`committed` is true. -/
structure TxResult (α : Type) where
  value : α
  working : Store
  committed : Bool

/-- schema.ChatRequest: message (required), optional session_id, user_id
defaulting to "anonymous" on the Pydantic model. -/
structure ChatRequest where
  message : String
  session_id : Option String
  user_id : String

/-- schema.ChatResponse. -/
structure ChatResponse where
  response : String
  session_id : String
  timestamp : Nat
deriving DecidableEq

/-- schema.ChatMessage as serialised by the history endpoint: role,
content, and a (filled-in) timestamp. -/
structure ChatMessageOut where
  role : String
  content : String
  timestamp : Nat
deriving DecidableEq

/-- schema.ChatHistory. -/
structure ChatHistoryOut where
  session_id : String
  messages : List ChatMessageOut
deriving DecidableEq

/-- An HTTPException as raised by the endpoints: status code and the
free-text detail. -/
structure HttpError where
  status_code : Nat
  detail : String
deriving DecidableEq

/-- utils.create_chat_session: inserts a session row with the freshly
generated identifier (`fresh_id` stands for the uuid4 value produced by
generate_session_id) and the current time, commits, and returns the
identifier.  The commit makes the insertion durable, so the function is
given directly on the durable store. -/
def create_chat_session (db : Store) (user_id : String) (title : String)
    (fresh_id : String) (now : Nat) : String × Store :=
  (fresh_id,
   { db with sessions := db.sessions ++
      [{ session_id := fresh_id, user_id := user_id, title := title, created_at := now }] })

/-- utils.save_message: inserts a message row stamped with the current
time and commits.  The commit makes the insertion durable, so the
function is given directly on the durable store. -/
def save_message (db : Store) (session_id : String) (role : String)
    (content : String) (now : Nat) : Store :=
  { db with messages := db.messages ++
      [{ session_id := session_id, role := role, content := content, timestamp := now }] }

/-- Stable insertion step for the ascending-timestamp sort performed by
order_by(ChatMessage.timestamp): an element is placed before the first
element with a strictly larger timestamp, so rows with equal timestamps
keep their insertion order. -/
def insertByTimestamp (m : MessageRow) : List MessageRow → List MessageRow
  | [] => [m]
  | x :: xs => if m.timestamp ≤ x.timestamp then m :: x :: xs else x :: insertByTimestamp m xs

/-- Stable sort of message rows by ascending timestamp (insertion sort
by right fold, which is stable). -/
def sortByTimestamp (l : List MessageRow) : List MessageRow :=
  l.foldr insertByTimestamp []

/-- utils.get_chat_history: filters messages by session_id, orders them
by ascending timestamp, and projects each row to its role/content
dictionary.  A session with no rows (or an unknown session) yields the
empty list. -/
def get_chat_history (db : Store) (session_id : String) : List ChatDict :=
  (sortByTimestamp (db.messages.filter (fun m => m.session_id == session_id))).map
    (fun m => { role := m.role, content := m.content })

/-- Stable insertion step for the descending-created_at sort performed by
order_by(ChatSession.created_at.desc()). -/
def insertByCreatedDesc (s : SessionRow) : List SessionRow → List SessionRow
  | [] => [s]
  | x :: xs => if x.created_at ≤ s.created_at then s :: x :: xs else x :: insertByCreatedDesc s xs

/-- utils.get_user_sessions: filters sessions by user_id and orders them
by descending creation time. -/
def get_user_sessions (db : Store) (user_id : String) : List SessionRow :=
  (db.sessions.filter (fun s => s.user_id == user_id)).foldr insertByCreatedDesc []

/-- utils.delete_chat_session, run inside one ORM session.  First all
message rows of `session_id` are deleted from the working state,
unconditionally.  Only then is the session row looked up together with
the ownership condition; on a match it is deleted and the transaction is
committed (returning true), otherwise the function returns false without
ever committing, leaving the message deletion pending in the
uncommitted transaction. -/
def delete_chat_session (db : Store) (session_id : String) (user_id : String) :
    TxResult Bool :=
  let db1 : Store :=
    { db with messages := db.messages.filter (fun m => m.session_id != session_id) }
  match db1.sessions.find? (fun s => s.session_id == session_id && s.user_id == user_id) with
  | some s =>
      { value := true, working := { db1 with sessions := db1.sessions.erase s },
        committed := true }
  | none => { value := false, working := db1, committed := false }

/-- The DELETE /sessions/{session_id} endpoint composed with the get_db
dependency: the per-request ORM session is closed when the request ends,
and closing rolls back anything not committed.  The boolean is the
delete_chat_session result (true becomes a 200 body, false a 404);
the store component is the durable state after the request. -/
def delete_session_endpoint (st : Store) (session_id : String) (user_id : String) :
    Bool × Store :=
  let r := delete_chat_session st session_id user_id
  (r.value, if r.committed then r.working else st)

/-- The system prompt baked into the FitnessChat client (chat.py),
byte for byte: the Python triple-quoted literal keeps its embedded
newlines, eight-space continuation indentation and trailing spaces. -/
def fitness_system_prompt : String :=
  "You are a knowledgeable fitness and health assistant. You provide helpful, \n" ++
  "        accurate, and motivating advice about:\n" ++
  "        - Exercise routines and workout plans\n" ++
  "        - Nutrition and diet recommendations\n" ++
  "        - Health and wellness tips\n" ++
  "        - Injury prevention and recovery\n" ++
  "        - Mental health and motivation\n" ++
  "        \n" ++
  "        Always provide safe, evidence-based advice and recommend consulting healthcare professionals \n" ++
  "        for serious health concerns. Be encouraging and supportive in your responses."

/-- The message list assembled inside FitnessChat.generate_response before
the API call: the system prompt, then — only when the history argument is
truthy, i.e. a non-empty list — the conversation history via extend, then
the current user message via append. -/
def assemble_messages (system_prompt : String) (message : String)
    (conversation_history : List ChatDict) : List ChatDict :=
  let messages : List ChatDict := [{ role := "system", content := system_prompt }]
  let messages := if conversation_history.isEmpty then messages
                  else messages ++ conversation_history
  messages ++ [{ role := "user", content := message }]

/-- The fallback string built by the except-branch of generate_response,
with the textual description of the caught exception spliced in. -/
def fallback_text (e : String) : String :=
  "Sorry, I encountered an error: " ++ e ++ ". Please try again."

/-- FitnessChat.generate_response.  The chat.completions.create call
(together with the choices[0].message.content projection) is the oracle
`api`: any exception it raises is its error value, which the except-branch
turns into the fallback string; on success the returned content is passed
through.  The function itself is total: it never raises. -/
def generate_response (system_prompt : String) (message : String)
    (conversation_history : List ChatDict)
    (api : List ChatDict → Except String String) : String :=
  match api (assemble_messages system_prompt message conversation_history) with
  | Except.ok text => text
  | Except.error e => fallback_text e

/-- Python negative-slice suffix messages[-k:].  When k = 0 Python reads
this as messages[0:], the whole list; otherwise it is the last k
elements. -/
def pyLastSlice (l : List ChatDict) (k : Nat) : List ChatDict :=
  if k = 0 then l else l.drop (l.length - k)

/-- FitnessChat.get_conversation_context: messages[-max_messages:] when
the list is longer than max_messages (10 at the Python call signature),
the list unchanged otherwise. -/
def get_conversation_context (messages : List ChatDict) (max_messages : Nat) :
    List ChatDict :=
  if messages.length > max_messages then pyLastSlice messages max_messages else messages

/-- Python truthiness of the request's optional session_id: None and the
empty string are falsy, so `if not session_id` triggers session creation
for both. -/
def pyFalsyStrOpt : Option String → Bool
  | none => true
  | some s => s == ""

/-- Description string of the AttributeError raised at main.py line 65.
The module global  chat = Chat()  of line 36 is rebound by the endpoint
definition  async def chat(...)  of line 49 (the route decorator hands
the function back unchanged), so inside the handler the name  chat
resolves to the endpoint function itself and  chat.generate_response
is an attribute lookup on a function object; this is CPython str(e) for
that failure. -/
def shadowed_chat_error : String :=
  "\x27function\x27 object has no attribute \x27generate_response\x27"

/-- The HTTPException raised by the chat endpoint's except-branch, its
detail embedding str(e) of the AttributeError. -/
def chat_request_error : HttpError :=
  { status_code := 500
    detail := "Error processing chat request: " ++ shadowed_chat_error }

/-- The POST /chat handler (main.chat), as the source executes.
Oracles: `fresh_id` is the uuid4 value used if a session must be
created, and the two timestamps are the datetime.utcnow() readings of
session creation and the user-message save.  The try-block runs in
source order — resolve or create the session (committed), fetch
history, save the user message (committed) — and then the completion
line raises the AttributeError described at shadowed_chat_error, since
the client global is shadowed by this very endpoint function.  The
except-branch turns the exception into an HTTP 500 whose detail embeds
str(e); the completion client is never invoked, the assistant message
is never saved, and no ChatResponse is produced, while the two commits
that already happened survive the rollback at get_db close. -/
def chat_handler (db : Store) (req : ChatRequest) (fresh_id : String)
    (t_create t_user : Nat) : Except HttpError ChatResponse × Store :=
  let sdb :=
    if pyFalsyStrOpt req.session_id then
      create_chat_session db req.user_id "New Chat" fresh_id t_create
    else
      (req.session_id.getD "", db)
  let session_id := sdb.1
  let db := sdb.2
  let history := get_chat_history db session_id
  let db := save_message db session_id "user" req.message t_user
  (Except.error chat_request_error, db)

/-- Modelled from the spec: the chat handler as section 4.4 of the spec
describes it, with the History Assembler trim (get_conversation_context,
limit 10) applied between the Store fetch and the Completion Client
call.  This definition follows the spec's words and exists only to be
compared with chat_handler, which follows the source. -/
def chat_handler_spec (db : Store) (req : ChatRequest) (fresh_id : String)
    (api : List ChatDict → Except String String)
    (t_create t_user t_assistant t_response : Nat) : ChatResponse × Store :=
  let sdb :=
    if pyFalsyStrOpt req.session_id then
      create_chat_session db req.user_id "New Chat" fresh_id t_create
    else
      (req.session_id.getD "", db)
  let session_id := sdb.1
  let db := sdb.2
  let history := get_conversation_context (get_chat_history db session_id) 10
  let db := save_message db session_id "user" req.message t_user
  let ai_response := generate_response fitness_system_prompt req.message history api
  let db := save_message db session_id "assistant" ai_response t_assistant
  ({ response := ai_response, session_id := session_id, timestamp := t_response }, db)

/-- The GET /chat/{session_id}/history handler (main.get_session_history):
fetches the stored role/content history and emits each entry with the
timestamp field set to the single datetime.utcnow() reading taken while
building the response list. -/
def get_session_history (db : Store) (session_id : String) (now : Nat) :
    ChatHistoryOut :=
  let messages := get_chat_history db session_id
  { session_id := session_id,
    messages := messages.map
      (fun m => { role := m.role, content := m.content, timestamp := now }) }

/-- Folding a list of append_message calls (role, content, utcnow reading)
over the store, in order, for round-trip statements about a session's
log. -/
def append_messages (db : Store) (session_id : String)
    (calls : List (String × String × Nat)) : Store :=
  calls.foldl (fun d rct => save_message d session_id rct.1 rct.2.1 rct.2.2) db

/-- Concrete store holding eleven messages for session "s", used to
exercise the handler on a history longer than the 10-message limit. -/
def elevenMessageStore : Store :=
  { sessions := [],
    messages := (List.range 11).map (fun i =>
      { session_id := "s", role := "user", content := toString i, timestamp := i }) }

/-- Completions oracle that reports how many messages it received, used
to observe the size of the payload the handler hands to the client. -/
def lengthReportingApi : List ChatDict → Except String String :=
  fun msgs => Except.ok (toString msgs.length)

/-- Concrete store with one session owned by "owner" and one message,
used to exercise delete_chat_session with a non-matching user. -/
def ownedStore : Store :=
  { sessions := [{ session_id := "s", user_id := "owner", title := "New Chat", created_at := 0 }],
    messages := [{ session_id := "s", role := "user", content := "Hi", timestamp := 1 }] }

/-- Concrete list of twelve distinct dictionaries for exercising the
context trim beyond its limit. -/
def twelveDicts : List ChatDict :=
  (List.range 12).map (fun i => { role := "user", content := toString i })

/-- The empty database, used as a concrete starting state. -/
def emptyStore : Store := { sessions := [], messages := [] }

theorem insertByTimestamp_of_le (m : MessageRow) (l : List MessageRow)
    (h : ∀ y ∈ l.head?, m.timestamp ≤ y.timestamp) :
    insertByTimestamp m l = m :: l := by
  cases l with
  | nil => rfl
  | cons x xs =>
      have hx : m.timestamp ≤ x.timestamp := h x rfl
      simp [insertByTimestamp, hx]

theorem sortByTimestamp_of_sorted (l : List MessageRow)
    (h : l.Chain' (fun a b => a.timestamp ≤ b.timestamp)) :
    sortByTimestamp l = l := by
  induction l with
  | nil => rfl
  | cons m l ih =>
      rw [List.chain'_cons'] at h
      have step : sortByTimestamp (m :: l) = insertByTimestamp m (sortByTimestamp l) := rfl
      rw [step, ih h.2, insertByTimestamp_of_le m l h.1]

theorem append_messages_messages (db : Store) (sid : String)
    (calls : List (String × String × Nat)) :
    (append_messages db sid calls).messages =
      db.messages ++ calls.map (fun rct =>
        ({ session_id := sid, role := rct.1, content := rct.2.1,
           timestamp := rct.2.2 } : MessageRow)) := by
  induction calls generalizing db with
  | nil => simp [append_messages]
  | cons c cs ih =>
      have step : append_messages db sid (c :: cs) =
          append_messages (save_message db sid c.1 c.2.1 c.2.2) sid cs := rfl
      rw [step, ih (save_message db sid c.1 c.2.1 c.2.2)]
      simp [save_message]

theorem map_timestamp_stamped (l : List ChatDict) (now : Nat) :
    ((l.map (fun m =>
        ({ role := m.role, content := m.content, timestamp := now } : ChatMessageOut))).map
      (fun m => m.timestamp)) = List.replicate l.length now := by
  induction l with
  | nil => rfl
  | cons a l ih =>
      simp only [List.map_cons, List.length_cons, List.replicate_succ]
      exact congrArg₂ List.cons rfl ih

theorem map_roleContent_stamped (l : List ChatDict) (now : Nat) :
    ((l.map (fun m =>
        ({ role := m.role, content := m.content, timestamp := now } : ChatMessageOut))).map
      (fun m => ChatDict.mk m.role m.content)) = l := by
  induction l with
  | nil => rfl
  | cons a l ih =>
      simp only [List.map_cons]
      exact congrArg₂ List.cons rfl ih

/-- C8: for every system prompt, user message and history, the payload
assembled for the external generation API is the system-prompt message
first, then the history entries in their original order, then the new
user message last, and nothing else. -/
theorem completion_payload_order (sp m : String) (h : List ChatDict) :
    assemble_messages sp m h =
      { role := "system", content := sp } ::
        (h ++ [{ role := "user", content := m }]) := by
  cases h with
  | nil => rfl
  | cons a l => rfl

/-- C5: generate_response is a total function (the embedding never
raises), and for every input the result is either the generated text,
when the underlying call succeeds, or the human-readable fallback string
embedding the error description, when it fails for any reason. -/
theorem generate_response_never_raises (sp m : String) (h : List ChatDict)
    (api : List ChatDict → Except String String) :
    (∃ e, api (assemble_messages sp m h) = Except.error e ∧
        generate_response sp m h api = fallback_text e) ∨
    (∃ t, api (assemble_messages sp m h) = Except.ok t ∧
        generate_response sp m h api = t) := by
  cases hres : api (assemble_messages sp m h) with
  | error e => exact Or.inl ⟨e, rfl, by simp [generate_response, hres]⟩
  | ok t => exact Or.inr ⟨t, rfl, by simp [generate_response, hres]⟩

/-- C6: the context trim is pure, and for every message sequence and
every positive limit (the Python call signature fixes the default to 10)
the output is the input unchanged when the length is within the limit,
and exactly the last max_messages elements, in original order, when the
length exceeds it. -/
theorem trim_context_correct (messages : List ChatDict) (max_messages : Nat)
    (hpos : 0 < max_messages) :
    get_conversation_context messages max_messages =
      if messages.length ≤ max_messages then messages
      else messages.drop (messages.length - max_messages) := by
  unfold get_conversation_context pyLastSlice
  split_ifs with h1 h2 h3
  all_goals first | rfl | (exfalso; omega)

/-- Witness for C6 at the default limit 10 on a twelve-element list. -/
theorem trim_context_correct_witness :
    get_conversation_context twelveDicts 10 = twelveDicts.drop 2 := by
  have h := trim_context_correct twelveDicts 10 (by decide)
  rw [h]
  decide

/-- C9: the history endpoint stamps every returned message with the
single now-reading taken while assembling the response — the returned
timestamps are a constant list — while roles and contents come from the
store; the stored write-time timestamps never reach the response. -/
theorem history_endpoint_stamps_now (db : Store) (sid : String) (now : Nat) :
    (get_session_history db sid now).messages.map (fun m => m.timestamp) =
        List.replicate (get_chat_history db sid).length now ∧
    (get_session_history db sid now).messages.map
        (fun m => ChatDict.mk m.role m.content) = get_chat_history db sid ∧
    (get_session_history db sid now).session_id = sid := by
  refine ⟨?_, ?_, rfl⟩
  · exact map_timestamp_stamped (get_chat_history db sid) now
  · exact map_roleContent_stamped (get_chat_history db sid) now

/-- C7: round-trip — starting from a store with no rows for the session,
a sequence of append_message calls whose utcnow readings are
non-decreasing is returned by list_messages exactly as appended, as
role/content pairs in append order; and a session with no rows (or an
unknown session) yields the empty sequence. -/
theorem append_then_list_round_trip (db : Store) (sid : String)
    (calls : List (String × String × Nat))
    (hempty : db.messages.filter (fun m => m.session_id == sid) = [])
    (hmono : calls.Chain' (fun a b => a.2.2 ≤ b.2.2)) :
    get_chat_history (append_messages db sid calls) sid =
        calls.map (fun rct => { role := rct.1, content := rct.2.1 }) ∧
    get_chat_history db sid = [] := by
  have hmsgs := append_messages_messages db sid calls
  constructor
  · unfold get_chat_history
    rw [hmsgs, List.filter_append, hempty, List.nil_append]
    have hall : ((calls.map (fun rct =>
        ({ session_id := sid, role := rct.1, content := rct.2.1,
           timestamp := rct.2.2 } : MessageRow))).filter
          (fun m => m.session_id == sid)) =
        calls.map (fun rct =>
          ({ session_id := sid, role := rct.1, content := rct.2.1,
             timestamp := rct.2.2 } : MessageRow)) := by
      apply List.filter_eq_self.mpr
      intro a ha
      obtain ⟨c, _, rfl⟩ := List.mem_map.mp ha
      simp
    rw [hall]
    have hchain : (calls.map (fun rct =>
        ({ session_id := sid, role := rct.1, content := rct.2.1,
           timestamp := rct.2.2 } : MessageRow))).Chain'
          (fun a b => a.timestamp ≤ b.timestamp) := by
      rw [List.chain'_map]
      exact hmono
    rw [sortByTimestamp_of_sorted _ hchain, List.map_map]
    rfl
  · unfold get_chat_history
    rw [hempty]
    rfl

/-- Witness for C7: two appends on a fresh session come back in order. -/
theorem append_then_list_round_trip_witness :
    get_chat_history (append_messages emptyStore "s"
        [("user", "Hi", 0), ("assistant", "Yo", 1)]) "s" =
      [{ role := "user", content := "Hi" }, { role := "assistant", content := "Yo" }] ∧
    get_chat_history emptyStore "s" = [] := by
  simpa using append_then_list_round_trip emptyStore "s"
    [("user", "Hi", 0), ("assistant", "Yo", 1)] (by decide) (by simp)

/-- C3: when no session row matches both the session identifier and the
supplied user identifier, the delete endpoint answers false (a 404) and
the durable store is unchanged — the session row and all its messages
are intact, because the unconditional message deletion was never
committed and closing the per-request ORM session rolls it back. -/
theorem delete_nonowner_durable_unchanged (st : Store) (sid : String) (uid : String)
    (h : ∀ s ∈ st.sessions, s.session_id = sid → s.user_id ≠ uid) :
    delete_session_endpoint st sid uid = (false, st) := by
  have hfind : (st.sessions.find?
      (fun s => s.session_id == sid && s.user_id == uid)) = none := by
    apply List.find?_eq_none.mpr
    intro s hs
    simp only [Bool.and_eq_true, beq_iff_eq, not_and]
    intro h1 h2
    exact h s hs h1 h2
  simp [delete_session_endpoint, delete_chat_session, hfind]

/-- Witness for C3 on a one-session, one-message store and an intruder. -/
theorem delete_nonowner_durable_unchanged_witness :
    delete_session_endpoint ownedStore "s" "intruder" = (false, ownedStore) :=
  delete_nonowner_durable_unchanged ownedStore "s" "intruder" (by decide)

/-- C4: inside the ORM session, delete_chat_session removes every message
row of the session before the ownership check, so with a non-matching
user the call returns false and its working state still contains the
session row while all of the session's messages are gone (only rows of
other sessions remain); no commit has been issued. -/
theorem delete_nonowner_transaction_view (st : Store) (sid : String) (uid : String)
    (h : ∀ s ∈ st.sessions, s.session_id = sid → s.user_id ≠ uid) :
    (delete_chat_session st sid uid).value = false ∧
    (delete_chat_session st sid uid).working.messages =
        st.messages.filter (fun m => m.session_id != sid) ∧
    (delete_chat_session st sid uid).working.sessions = st.sessions ∧
    (delete_chat_session st sid uid).committed = false := by
  have hfind : (st.sessions.find?
      (fun s => s.session_id == sid && s.user_id == uid)) = none := by
    apply List.find?_eq_none.mpr
    intro s hs
    simp only [Bool.and_eq_true, beq_iff_eq, not_and]
    intro h1 h2
    exact h s hs h1 h2
  simp [delete_chat_session, hfind]

/-- Witness for C4 on the same store: the transaction view keeps the
session row but has no message rows left for the session. -/
theorem delete_nonowner_transaction_view_witness :
    (delete_chat_session ownedStore "s" "intruder").value = false ∧
    (delete_chat_session ownedStore "s" "intruder").working.messages =
        ownedStore.messages.filter (fun m => m.session_id != "s") ∧
    (delete_chat_session ownedStore "s" "intruder").working.sessions =
        ownedStore.sessions ∧
    (delete_chat_session ownedStore "s" "intruder").committed = false :=
  delete_nonowner_transaction_view ownedStore "s" "intruder" (by decide)

theorem chat_handler_none_eq (db : Store) (msg uid fresh_id : String) (t1 t2 : Nat) :
    chat_handler db { message := msg, session_id := none, user_id := uid } fresh_id t1 t2 =
      (Except.error chat_request_error,
       { sessions := db.sessions ++
            [{ session_id := fresh_id, user_id := uid, title := "New Chat", created_at := t1 }],
         messages := db.messages ++
            [{ session_id := fresh_id, role := "user", content := msg, timestamp := t2 }] }) := rfl

theorem chat_handler_some_eq (db : Store) (msg uid sid fresh_id : String) (t1 t2 : Nat)
    (hb : (sid == "") = false) :
    chat_handler db { message := msg, session_id := some sid, user_id := uid } fresh_id t1 t2 =
      (Except.error chat_request_error,
       { sessions := db.sessions,
         messages := db.messages ++
            [{ session_id := sid, role := "user", content := msg, timestamp := t2 }] }) := by
  unfold chat_handler
  simp only [pyFalsyStrOpt, hb]
  rfl

/-- C1: refuted by the source — the claim states the spec's intended
end-to-end behaviour, but main.py line 65 looks up generate_response on
the module global  chat , which the endpoint function of the same name
has shadowed, so every POST /chat raises AttributeError there.  With no
session_id and message "Hi" the handler still creates and commits the
fresh session row and the user message, then the except-branch answers
a 500 whose detail embeds the AttributeError description: no
ChatResponse is returned, the completion client is never called, and
the session's history afterwards holds exactly one message — the user
message "Hi" — with no assistant row.  Oracle assumption: the generated
identifier is unused by any stored message. -/
theorem chat_fresh_session_crashes
    (db : Store) (uid fresh_id : String) (t_create t_user : Nat)
    (hnomsg : db.messages.filter (fun m => m.session_id == fresh_id) = []) :
    (chat_handler db { message := "Hi", session_id := none, user_id := uid }
        fresh_id t_create t_user).1 =
      Except.error chat_request_error ∧
    (chat_handler db { message := "Hi", session_id := none, user_id := uid }
        fresh_id t_create t_user).2.sessions =
      db.sessions ++
        [{ session_id := fresh_id, user_id := uid, title := "New Chat", created_at := t_create }] ∧
    get_chat_history (chat_handler db { message := "Hi", session_id := none, user_id := uid }
        fresh_id t_create t_user).2 fresh_id =
      [{ role := "user", content := "Hi" }] := by
  have hH := chat_handler_none_eq db "Hi" uid fresh_id t_create t_user
  refine ⟨?_, ?_, ?_⟩
  · rw [hH]
  · rw [hH]
  · rw [hH]
    simp [get_chat_history, List.filter_append, hnomsg, sortByTimestamp, insertByTimestamp]

/-- Witness for C1 on the empty store. -/
theorem chat_fresh_session_crashes_witness :
    (chat_handler emptyStore { message := "Hi", session_id := none, user_id := "anonymous" }
        "s1" 0 1).1 =
      Except.error chat_request_error ∧
    (chat_handler emptyStore { message := "Hi", session_id := none, user_id := "anonymous" }
        "s1" 0 1).2.sessions =
      emptyStore.sessions ++
        [{ session_id := "s1", user_id := "anonymous", title := "New Chat", created_at := 0 }] ∧
    get_chat_history (chat_handler emptyStore
        { message := "Hi", session_id := none, user_id := "anonymous" }
        "s1" 0 1).2 "s1" =
      [{ role := "user", content := "Hi" }] :=
  chat_fresh_session_crashes emptyStore "anonymous" "s1" 0 1 (by decide)

/-- C10 counterexample: on the empty store, a POST /chat supplying
session_id "ghost" leaves the final message table holding only the user
row — it contains no assistant row at all — so the claim that both the
user and the assistant messages are appended is false at this input. -/
theorem chat_supplied_sid_counterexample :
    (chat_handler emptyStore { message := "Hi", session_id := some "ghost", user_id := "u" }
        "f" 0 1).2.messages =
      [{ session_id := "ghost", role := "user", content := "Hi", timestamp := 1 }] ∧
    ((chat_handler emptyStore { message := "Hi", session_id := some "ghost", user_id := "u" }
        "f" 0 1).2.messages.filter (fun m => m.role == "assistant")) = [] := by
  have hH := chat_handler_some_eq emptyStore "Hi" "u" "ghost" "f" 0 1 (by decide)
  rw [hH]
  exact ⟨rfl, rfl⟩

/-- C10 amended: a POST /chat carrying a non-empty session_id never
reads, validates or creates a session row — the sessions table and
every user's session listing are unchanged — and it appends the user
message keyed to the supplied identifier as given, for an arbitrary
store, in particular one with no session row under that identifier; the
assistant message is never appended, because the handler raises at the
completion call and answers a 500. -/
theorem chat_supplied_sid_user_only
    (db : Store) (msg uid sid fresh_id : String) (t_create t_user : Nat)
    (hsid : sid ≠ "") :
    (chat_handler db { message := msg, session_id := some sid, user_id := uid }
        fresh_id t_create t_user).2.sessions = db.sessions ∧
    (chat_handler db { message := msg, session_id := some sid, user_id := uid }
        fresh_id t_create t_user).2.messages =
      db.messages ++
        [{ session_id := sid, role := "user", content := msg, timestamp := t_user }] ∧
    (∀ u, get_user_sessions (chat_handler db
        { message := msg, session_id := some sid, user_id := uid }
        fresh_id t_create t_user).2 u = get_user_sessions db u) ∧
    (chat_handler db { message := msg, session_id := some sid, user_id := uid }
        fresh_id t_create t_user).1 =
      Except.error chat_request_error := by
  have hb : (sid == "") = false := by
    simp [hsid]
  have hH := chat_handler_some_eq db msg uid sid fresh_id t_create t_user hb
  refine ⟨?_, ?_, ?_, ?_⟩
  · rw [hH]
  · rw [hH]
  · intro u
    rw [hH]
    unfold get_user_sessions
    rfl
  · rw [hH]

/-- Witness for the amended C10: the ghost identifier on the empty store. -/
theorem chat_supplied_sid_user_only_witness :
    (chat_handler emptyStore { message := "Hi", session_id := some "ghost", user_id := "u" }
        "f" 0 1).2.sessions = emptyStore.sessions ∧
    (chat_handler emptyStore { message := "Hi", session_id := some "ghost", user_id := "u" }
        "f" 0 1).2.messages =
      emptyStore.messages ++
        [{ session_id := "ghost", role := "user", content := "Hi", timestamp := 1 }] ∧
    (∀ u, get_user_sessions (chat_handler emptyStore
        { message := "Hi", session_id := some "ghost", user_id := "u" }
        "f" 0 1).2 u = get_user_sessions emptyStore u) ∧
    (chat_handler emptyStore { message := "Hi", session_id := some "ghost", user_id := "u" }
        "f" 0 1).1 =
      Except.error chat_request_error :=
  chat_supplied_sid_user_only emptyStore "Hi" "u" "ghost" "f" 0 1 (by decide)

/-- C2 counterexample: on a store holding eleven messages for session
"s" — more than the ten the claimed trim would forward — the source
handler hands the Completion Client nothing at all: it answers the
AttributeError-derived 500 before any completion call, whereas under
the claim the client would receive the last ten of the eleven stored
messages, i.e. a twelve-message payload (system prompt, ten history
entries, new user message), as the spec-modelled trimming handler shows
with a payload-size-reporting oracle. -/
theorem chat_trim_claim_counterexample :
    (chat_handler elevenMessageStore { message := "m", session_id := some "s", user_id := "u" }
        "f" 0 11).1 =
      Except.error chat_request_error ∧
    (chat_handler_spec elevenMessageStore { message := "m", session_id := some "s", user_id := "u" }
        "f" lengthReportingApi 0 11 12 13).1.response = "12" ∧
    (get_chat_history elevenMessageStore "s").length = 11 := by
  refine ⟨rfl, rfl, ?_⟩
  decide

/-- C2 amended: nothing is ever handed to the Completion Client by
POST /chat, trimmed or untrimmed — the handler raises the
shadowed-global AttributeError before any completion call, so every
chat request answers the same fixed 500 error and the answer is
identical across arbitrary stored histories; the History Assembler's
trim (get_conversation_context) is invoked nowhere in the handler. -/
theorem chat_completion_never_invoked
    (db db2 : Store) (req : ChatRequest) (fresh_id : String) (t_create t_user : Nat) :
    (chat_handler db req fresh_id t_create t_user).1 =
      Except.error chat_request_error ∧
    (chat_handler db req fresh_id t_create t_user).1 =
      (chat_handler db2 req fresh_id t_create t_user).1 :=
  ⟨rfl, rfl⟩
